import Mathlib

set_option linter.unnecessarySeqFocus false

/-!
Verification of the mysocial-token trading bots.

This file gives a shallow embedding of the volume-bot trade executor
(`scripts/volume_bot/trader.py`), the wallet pool registry
(`scripts/volume_bot/multi_wallet_manager.py`) and the supply-release bot
(`scripts/supply_release_bot/bot.py`), together with theorems settling the
specification claims about them.

Network effects (RPC reads, transaction submission, receipt waiting, the
`swap_usdc_for_eth` recovery conversion) are modelled by an explicit
environment record consulted by the embedded control flow; the control flow
itself — branch structure, retry flags, error classification, arithmetic —
is translated directly from the Python source.  Machine integers are `ℕ`/`ℤ`
(Python integers are unbounded), dollar amounts and prices are `ℚ`
(Python floats, modelled by exact rational arithmetic).
-/

namespace MySocial

/-! ### Token addresses and symbols (trader.py, `TOKEN_SYMBOLS`)

Addresses are the lowercase hex strings from the source; the code compares
addresses case-insensitively via `.lower()`, embedded as `pyLower`. -/

/-- Python's `str.lower()`, used by the source for case-insensitive address
comparison.  Defined structurally over the character list so that concrete
instances evaluate inside the kernel. -/
def pyLower (s : String) : String := ⟨s.data.map Char.toLower⟩

def MYSO_ADDRESS : String := "0xfdd6013bf2757018d8c087244f03e5a521b2d3b7"

def USDC_ADDRESS : String := "0x833589fcd6edb6e08f4c7c32d4f71b54bda02913"

def WETH_ADDRESS : String := "0x4200000000000000000000000000000000000006"

def ZERO_ADDRESS : String := "0x0000000000000000000000000000000000000000"

/-- The hardcoded symbol table `TOKEN_SYMBOLS` of trader.py. -/
def TOKEN_SYMBOLS (addrLower : String) : Option String :=
  if addrLower = MYSO_ADDRESS then some "MYSO"
  else if addrLower = USDC_ADDRESS then some "USDC"
  else if addrLower = WETH_ADDRESS then some "WETH"
  else none

/-! ### Gas price policy (trader.py lines 173, 294-296, 385-397, 473, 494, 772-773) -/

/-- `self.max_gas_price = Web3.to_wei(100, 'gwei')` (trader.py line 173). -/
def max_gas_price : ℕ := 100 * 10 ^ 9

/-- `Trader.get_gas_price` (trader.py lines 385-397): the live gas price
clamped to `max_gas_price`; on a read error (`none`) the cap itself.  -/
def get_gas_price (live : Option ℕ) : ℕ :=
  match live with
  | some g => min g max_gas_price
  | none => max_gas_price

/-- Gas price used by `approve_token` (line 296):
`int(self.w3.eth.gas_price * 1.2)`, the raw live price with a 20% boost.
`int(x * 1.2)` on an integer `x` is modelled exactly as `x * 12 / 10`. -/
def approve_gas_price (live : ℕ) : ℕ := live * 12 / 10

/-- Gas price used by `swap_tokens_for_tokens` (line 773):
`int(self.w3.eth.gas_price * 1.4)`. -/
def swap_gas_price (live : ℕ) : ℕ := live * 14 / 10

/-- Gas price used by the emergency `swap_usdc_for_eth` path
(lines 473 and 494): `int(self.w3.eth.gas_price * 0.8)`. -/
def emergency_gas_price (live : ℕ) : ℕ := live * 8 / 10

/-! ### Outcomes of network submission, observable events, error taxonomy -/

/-- Result of one `send_raw_transaction` / `wait_for_transaction_receipt`
round: mined with a receipt status, the "insufficient funds for
gas * price + value" exception, or some other exception. -/
inductive SendRes
  | mined (txHash : String) (status : ℕ)
  | insufficientGas
  | otherErr
deriving DecidableEq

/-- Observable events of a trade attempt, in order of occurrence:
an approval transaction submission, a `swap_usdc_for_eth` recovery
conversion, a swap submission (recording the retry flag and the
`amountOutMinimum` used), and the read-only revert-reason probe. -/
inductive Ev
  | approveSubmit (retryFlag : Bool)
  | recovery
  | submit (retryFlag : Bool) (minOut : ℕ)
  | probe (ok : Bool)
deriving DecidableEq

/-- Failure kinds surfaced by the embedded trader (the `raise` sites of
trader.py): no liquidity pool, post-approval allowance still short,
the "Need ETH to fund initial transaction" circular-recovery error,
the insufficient-gas exception re-raised terminally, anything else. -/
inductive TradeErr
  | noLiquidityPool
  | approvalFailed
  | needEth
  | insufficientGas
  | otherErr
deriving DecidableEq

/-- Count of recovery-conversion (`swap_usdc_for_eth`) calls in a trace. -/
def countRecovery (evs : List Ev) : ℕ :=
  evs.countP fun e => match e with | .recovery => true | _ => false

/-- The retry flags of the swap submissions in a trace, in order. -/
def submitFlags (evs : List Ev) : List Bool :=
  evs.filterMap fun e => match e with | .submit b _ => some b | _ => none

/-! ### `approve_token` (trader.py lines 270-354)

The environment carries the chain state the function reads: the current
allowance, the outcome of the n-th approval submission (`send 0` for the
initial attempt, `send 1` for the retry after the recovery conversion),
the wallet's USDC balance, and whether `swap_usdc_for_eth` succeeds. -/

structure ApproveEnv where
  allowance : ℕ
  send : ℕ → SendRes
  usdcBalance : ℕ
  ethSwapOk : Bool

/-- `approve_token` with `retry_after_eth_swap=True`: the recovery branch is
disabled (`... and not retry_after_eth_swap` is false), so an
insufficient-gas failure is re-raised. Receipt errors while waiting are
swallowed and the hash returned (lines 308-322). -/
def approve_token_retry (env : ApproveEnv) (_tokenAddress : String) (amount : ℕ) :
    Except TradeErr String × List Ev :=
  if amount ≤ env.allowance then (.ok "0x0", [])
  else match env.send 1 with
    | .mined h _s => (.ok h, [.approveSubmit true])
    | .insufficientGas => (.error .insufficientGas, [.approveSubmit true])
    | .otherErr => (.error .otherErr, [.approveSubmit true])

/-- `approve_token` with `retry_after_eth_swap=False` (the default): if the
allowance already covers `amount`, return the sentinel hash `"0x0"` without
submitting; on an insufficient-gas submission failure, raise the need-ETH
error if the token being approved is USDC itself (lines 331-336), otherwise
run `swap_usdc_for_eth` when the USDC balance is positive and, if it
succeeds, re-invoke with the retry flag set (lines 338-349); in every other
failure case re-raise (line 354). -/
def approve_token (env : ApproveEnv) (tokenAddress : String) (amount : ℕ) :
    Except TradeErr String × List Ev :=
  if amount ≤ env.allowance then (.ok "0x0", [])
  else match env.send 0 with
    | .mined h _s => (.ok h, [.approveSubmit false])
    | .insufficientGas =>
        if pyLower tokenAddress = USDC_ADDRESS then
          (.error .needEth, [.approveSubmit false])
        else if 0 < env.usdcBalance then
          if env.ethSwapOk then
            let r := approve_token_retry env tokenAddress amount
            (r.1, .approveSubmit false :: .recovery :: r.2)
          else (.error .insufficientGas, [.approveSubmit false, .recovery])
        else (.error .insufficientGas, [.approveSubmit false])
    | .otherErr => (.error .otherErr, [.approveSubmit false])

/-! ### `swap_tokens_for_tokens` (trader.py lines 702-863) -/

/-- Environment for one trade request: the factory `getPool` answer
(`none` models an exception during the query), the allowance of `tokenIn`
for the router before and after an approval, the outcomes of approval and
swap submissions by attempt index, the USDC balance, whether
`swap_usdc_for_eth` succeeds, whether the revert-reason replay call
succeeds, and the symbol lookup fallback for unknown tokens. -/
structure SwapEnv where
  poolQuery : Option String
  allowance : ℕ
  newAllowance : ℕ
  approveSend : ℕ → SendRes
  swapSend : ℕ → SendRes
  usdcBalance : ℕ
  ethSwapOk : Bool
  probeOk : Bool
  symbolOf : String → String

/-- `Trader.check_pool_exists` (trader.py lines 399-433): the factory query
result compared against the zero address; any exception during the query
(`poolQuery = none`) yields `false`. The token-order sort at lines 416-417
only canonicalises the arguments of the query the oracle answers. -/
def check_pool_exists (env : SwapEnv) : Bool :=
  match env.poolQuery with
  | none => false
  | some poolAddress => poolAddress ≠ ZERO_ADDRESS

/-- `Trader.get_token_symbol` (trader.py lines 246-268): hardcoded table
first, then the contract `symbol()` call (the environment's fallback). -/
def get_token_symbol (env : SwapEnv) (tokenAddress : String) : String :=
  match TOKEN_SYMBOLS (pyLower tokenAddress) with
  | some s => s
  | none => env.symbolOf tokenAddress

/-- `2**256 - 1`, the default `amount` of `approve_token` (line 270). -/
def MAX_UINT256 : ℕ := 2 ^ 256 - 1

/-- The minimum-output computation of `swap_tokens_for_tokens`
(trader.py lines 754-765): a fixed `1000` (0.001 USDC at 6 decimals) for a
MYSO → USDC sell, otherwise `int(amount_in * 0.2)`, modelled exactly as
`amount_in / 5`. -/
def amount_out_min (symIn symOut : String) (amountIn : ℕ) : ℕ :=
  if symIn = "MYSO" ∧ symOut = "USDC" then 1000
  else amountIn / 5

/-- The allowance-check-and-approve step of `swap_tokens_for_tokens`
(trader.py lines 733-752): when the allowance is short, call
`approve_token` (with its unlimited default amount); a raised error
propagates; a real (non-`"0x0"`) approval re-reads the allowance and fails
with `approvalFailed` if it is still short. Returns `none` to proceed. -/
def swap_approval_step (env : SwapEnv) (tokenIn : String) (amountIn : ℕ) :
    Option TradeErr × List Ev :=
  if env.allowance < amountIn then
    let appEnv : ApproveEnv :=
      { allowance := env.allowance, send := env.approveSend,
        usdcBalance := env.usdcBalance, ethSwapOk := env.ethSwapOk }
    match approve_token appEnv tokenIn MAX_UINT256 with
    | (.error e, evs) => (some e, evs)
    | (.ok h, evs) =>
        if h ≠ "0x0" then
          if env.newAllowance < amountIn then (some .approvalFailed, evs)
          else (none, evs)
        else (none, evs)
  else (none, [])

/-- `swap_tokens_for_tokens` with `retry_after_eth_swap=True`: identical to
the initial attempt except that the insufficient-gas handler (lines
837-853) is skipped, so the exception is re-raised (line 858).  The swap
submission consumes `swapSend 1`. -/
def swap_tokens_for_tokens_retry (env : SwapEnv) (tokenIn tokenOut : String)
    (amountIn : ℕ) : Except TradeErr String × List Ev :=
  if ¬ check_pool_exists env then (.error .noLiquidityPool, [])
  else match swap_approval_step env tokenIn amountIn with
    | (some e, evs) => (.error e, evs)
    | (none, evs) =>
        let minOut :=
          amount_out_min (get_token_symbol env tokenIn)
            (get_token_symbol env tokenOut) amountIn
        match env.swapSend 1 with
        | .mined h status =>
            if status = 1 then (.ok h, evs ++ [.submit true minOut])
            else (.ok h, evs ++ [.submit true minOut, .probe env.probeOk])
        | .insufficientGas =>
            (.error .insufficientGas, evs ++ [.submit true minOut])
        | .otherErr => (.error .otherErr, evs ++ [.submit true minOut])

/-- `swap_tokens_for_tokens` with `retry_after_eth_swap=False` (the
default).  Pool check (line 729), allowance/approval (lines 733-752),
minimum output (lines 754-765), submission (line 804).  A mined receipt
with status 1 returns the hash; status ≠ 1 runs the revert-reason replay
probe — whose own failure is swallowed — and still returns the hash (lines
812-833).  An insufficient-gas submission failure runs
`swap_usdc_for_eth` when the USDC balance is positive and, if that
conversion succeeds, re-invokes the swap once with the retry flag set
(lines 837-853); otherwise the exception is re-raised (line 858). -/
def swap_tokens_for_tokens (env : SwapEnv) (tokenIn tokenOut : String)
    (amountIn : ℕ) : Except TradeErr String × List Ev :=
  if ¬ check_pool_exists env then (.error .noLiquidityPool, [])
  else match swap_approval_step env tokenIn amountIn with
    | (some e, evs) => (.error e, evs)
    | (none, evs) =>
        let minOut :=
          amount_out_min (get_token_symbol env tokenIn)
            (get_token_symbol env tokenOut) amountIn
        match env.swapSend 0 with
        | .mined h status =>
            if status = 1 then (.ok h, evs ++ [.submit false minOut])
            else (.ok h, evs ++ [.submit false minOut, .probe env.probeOk])
        | .insufficientGas =>
            if 0 < env.usdcBalance then
              if env.ethSwapOk then
                let r := swap_tokens_for_tokens_retry env tokenIn tokenOut amountIn
                (r.1, evs ++ [.submit false minOut, .recovery] ++ r.2)
              else (.error .insufficientGas,
                    evs ++ [.submit false minOut, .recovery])
            else (.error .insufficientGas, evs ++ [.submit false minOut])
        | .otherErr => (.error .otherErr, evs ++ [.submit false minOut])

/-! ### Wallet pool registry (multi_wallet_manager.py) -/

/-- The per-wallet statistics stored in the wallet file
(multi_wallet_manager.py lines 106-109 and 163-167): a single trade
counter and a cumulative USD volume.  The USD amount, a Python float, is
modelled as `ℚ`. -/
structure WalletStats where
  trades : ℕ
  volume : ℚ
deriving DecidableEq

/-- One record of the wallet storage file. -/
structure WalletData where
  address : String
  active : Bool
  stats : WalletStats
deriving DecidableEq

/-- `MultiWalletManager.update_wallet_stats` (lines 150-170): find the
first record whose address matches case-insensitively, increment its
`trades` counter, add `trade_amount_usd` to its `volume`, and stop
(`break`); if no record matches, the registry is rewritten unchanged. -/
def update_wallet_stats (walletsData : List WalletData) (address : String)
    (tradeAmountUsd : ℚ) : List WalletData :=
  match walletsData with
  | [] => []
  | w :: rest =>
      if pyLower w.address = pyLower address then
        { w with stats := { trades := w.stats.trades + 1,
                            volume := w.stats.volume + tradeAmountUsd } } :: rest
      else w :: update_wallet_stats rest address tradeAmountUsd

/-- The `while len(self.wallets) < count: self.create_wallet()` loop of
`ensure_wallets` (lines 125-126); `fresh k` is the k-th randomly created
wallet appended by `create_wallet`. -/
def ensure_wallets_loop (fresh : ℕ → α) (k : ℕ) (ws : List α) (count : ℕ) :
    List α :=
  if ws.length < count then
    ensure_wallets_loop fresh (k + 1) (ws ++ [fresh k]) count
  else ws
termination_by count - ws.length
decreasing_by simp only [List.length_append, List.length_cons, List.length_nil]; omega

/-- `MultiWalletManager.ensure_wallets` (lines 115-128): create wallets
until at least `count` exist, then return the pool and its first `count`
wallets. -/
def ensure_wallets (fresh : ℕ → α) (ws : List α) (count : ℕ) :
    List α × List α :=
  let pool := ensure_wallets_loop fresh 0 ws count
  (pool, pool.take count)

/-- `MultiWalletManager.deactivate_wallets` (lines 172-197), on the list of
in-memory wallets; returns `(deactivated, remaining)`.  The `count = 0`
case mirrors Python slicing exactly: `ws[-0:]` is the whole list and
`ws[:-0]` is empty, so a zero count deactivates every wallet. -/
def deactivate_wallets (ws : List α) (count : ℕ) : List α × List α :=
  if ws.length ≤ count then (ws, [])
  else if count = 0 then (ws, [])
  else (ws.drop (ws.length - count), ws.take (ws.length - count))

/-! ### Supply-release bot (supply_release_bot/bot.py) -/

/-- The configuration fields `calculate_mint_amount` and `run` read
(bot.py lines 32-42): floats are modelled as `ℚ`, the cap as `ℤ`
(a Python integer compared and subtracted against the persisted
`released` counter). -/
structure SupplyConfig where
  target_price : ℚ
  threshold_percent : ℚ
  release_cap : ℤ

/-- `SupplyReleaseBot.calculate_mint_amount` (bot.py lines 96-104):
zero when the price does not exceed the target, otherwise
`int(total_supply * deviation * 0.1)` capped by the remaining release
budget.  `int(·)` truncates toward zero, which on the nonnegative value
reached in this branch is `⌊·⌋`. -/
def calculate_mint_amount (cfg : SupplyConfig) (released : ℤ)
    (totalSupply : ℤ) (price : ℚ) : ℤ :=
  if (price - cfg.target_price) / cfg.target_price ≤ 0 then 0
  else
    min ⌊(totalSupply : ℚ) * ((price - cfg.target_price) / cfg.target_price)
          * (1 / 10)⌋
      (cfg.release_cap - released)

/-- `SupplyReleaseBot.run` (bot.py lines 127-143) as a transformer of the
persisted `released` counter: return unchanged when the price is within
the threshold band or the cap is reached; otherwise mint-and-sell the
calculated amount when it is positive, which adds exactly that amount to
`released` (bot.py line 123). -/
def supply_release_run (cfg : SupplyConfig) (released : ℤ) (totalSupply : ℤ)
    (price : ℚ) : ℤ :=
  if price ≤ cfg.target_price * (1 + cfg.threshold_percent / 100) then released
  else if cfg.release_cap ≤ released then released
  else if 0 < calculate_mint_amount cfg released totalSupply price then
    released + calculate_mint_amount cfg released totalSupply price
  else released

/-! ## Shared lemmas -/

/-- Closed form of the `ensure_wallets` creation loop: it appends exactly
the wallets needed to reach `count`, and nothing else. -/
theorem ensure_wallets_loop_eq (fresh : ℕ → α) (k : ℕ) (ws : List α)
    (count : ℕ) :
    ensure_wallets_loop fresh k ws count
      = ws ++ (List.range' k (count - ws.length)).map fresh := by
  rw [ensure_wallets_loop]
  split
  · next h =>
      rw [ensure_wallets_loop_eq fresh (k + 1) (ws ++ [fresh k]) count]
      have h1 : count - ws.length = (count - (ws ++ [fresh k]).length) + 1 := by
        simp only [List.length_append, List.length_cons, List.length_nil]
        omega
      rw [h1, List.range'_succ]
      simp
  · next h =>
      have h1 : count - ws.length = 0 := by omega
      simp [h1]
termination_by count - ws.length
decreasing_by simp only [List.length_append, List.length_cons, List.length_nil]; omega

/-- When the allowance already covers `amountIn`, the approval step of the
swap does nothing. -/
theorem swap_approval_step_skip (env : SwapEnv) (tokenIn : String)
    (amountIn : ℕ) (hallow : amountIn ≤ env.allowance) :
    swap_approval_step env tokenIn amountIn = (none, []) := by
  unfold swap_approval_step
  rw [if_neg (by omega)]

/-- A retried swap attempt never runs the recovery conversion (given the
approval step is skipped, hence contributes no events). -/
theorem countRecovery_retry_eq_zero (env : SwapEnv) (tokenIn tokenOut : String)
    (amountIn : ℕ) (hallow : amountIn ≤ env.allowance) :
    countRecovery (swap_tokens_for_tokens_retry env tokenIn tokenOut amountIn).2
      = 0 := by
  unfold swap_tokens_for_tokens_retry
  by_cases hp : check_pool_exists env = true
  · rw [swap_approval_step_skip env tokenIn amountIn hallow]
    rcases h1 : env.swapSend 1 with ⟨h, s⟩ | _ | _ <;>
      simp [hp, h1, countRecovery, List.countP_cons, List.countP_nil] <;>
      split_ifs <;>
      simp [countRecovery, List.countP_cons, List.countP_nil]
  · simp [hp, countRecovery, List.countP_nil]

/-- An initial swap attempt with sufficient allowance runs the recovery
conversion at most once, in every environment. -/
theorem countRecovery_main_le_one (env : SwapEnv) (tokenIn tokenOut : String)
    (amountIn : ℕ) (hallow : amountIn ≤ env.allowance) :
    countRecovery (swap_tokens_for_tokens env tokenIn tokenOut amountIn).2
      ≤ 1 := by
  unfold swap_tokens_for_tokens
  by_cases hp : check_pool_exists env = true
  · rw [swap_approval_step_skip env tokenIn amountIn hallow]
    have hretry := countRecovery_retry_eq_zero env tokenIn tokenOut amountIn hallow
    rcases h0 : env.swapSend 0 with ⟨h, s⟩ | _ | _ <;>
      simp [hp, h0, countRecovery, List.countP_cons, List.countP_nil,
        List.countP_append] <;>
      split_ifs <;>
      simp_all [countRecovery, List.countP_cons, List.countP_nil,
        List.countP_append]
  · simp [hp, countRecovery, List.countP_nil]

/-! ## Claims -/

/-- Claim C1: gas-shortfall recovery is attempted at most once per trade
request.  When the initial submission (retry flag false) fails with the
insufficient-gas condition and recovery is viable (positive USDC balance,
successful conversion), the recovery conversion runs and the swap is
re-invoked exactly once with the retry flag true; when the retried attempt
fails with the insufficient-gas condition again, the operation fails
terminally with the insufficient-gas kind, the whole request having
performed exactly one recovery conversion and exactly two submissions —
and in every environment whose allowance is sufficient, an initial request
runs at most one recovery and a retried attempt runs none. -/
theorem swap_gas_recovery_at_most_once (env : SwapEnv)
    (tokenIn tokenOut : String) (amountIn : ℕ)
    (hpool : check_pool_exists env = true)
    (hallow : amountIn ≤ env.allowance)
    (h0 : env.swapSend 0 = .insufficientGas)
    (h1 : env.swapSend 1 = .insufficientGas)
    (hbal : 0 < env.usdcBalance)
    (hrec : env.ethSwapOk = true) :
    (swap_tokens_for_tokens env tokenIn tokenOut amountIn).1
        = .error .insufficientGas
    ∧ countRecovery (swap_tokens_for_tokens env tokenIn tokenOut amountIn).2 = 1
    ∧ submitFlags (swap_tokens_for_tokens env tokenIn tokenOut amountIn).2
        = [false, true]
    ∧ ∀ env' : SwapEnv, amountIn ≤ env'.allowance →
        countRecovery (swap_tokens_for_tokens env' tokenIn tokenOut amountIn).2
            ≤ 1
        ∧ countRecovery
            (swap_tokens_for_tokens_retry env' tokenIn tokenOut amountIn).2
            = 0 := by
  have hretry : swap_tokens_for_tokens_retry env tokenIn tokenOut amountIn
      = (.error .insufficientGas,
         [.submit true (amount_out_min (get_token_symbol env tokenIn)
            (get_token_symbol env tokenOut) amountIn)]) := by
    unfold swap_tokens_for_tokens_retry
    rw [swap_approval_step_skip env tokenIn amountIn hallow]
    simp [hpool, h1]
  have hmain : swap_tokens_for_tokens env tokenIn tokenOut amountIn
      = (.error .insufficientGas,
         [.submit false (amount_out_min (get_token_symbol env tokenIn)
            (get_token_symbol env tokenOut) amountIn),
          .recovery,
          .submit true (amount_out_min (get_token_symbol env tokenIn)
            (get_token_symbol env tokenOut) amountIn)]) := by
    unfold swap_tokens_for_tokens
    rw [swap_approval_step_skip env tokenIn amountIn hallow]
    simp [hpool, h0, hbal, hrec, hretry]
  refine ⟨by rw [hmain], ?_, ?_, fun env' hallow' =>
    ⟨countRecovery_main_le_one env' tokenIn tokenOut amountIn hallow',
     countRecovery_retry_eq_zero env' tokenIn tokenOut amountIn hallow'⟩⟩
  · rw [hmain]
    simp [countRecovery, List.countP_cons, List.countP_nil]
  · rw [hmain]
    simp [submitFlags]

/-- Concrete environment for the C1 witness: pool present, allowance
ample, both swap submissions fail with the insufficient-gas condition,
USDC available and the recovery conversion succeeds. -/
def envC1 : SwapEnv :=
  { poolQuery := some "0x1111"
    allowance := 1000000
    newAllowance := 0
    approveSend := fun _ => .otherErr
    swapSend := fun _ => .insufficientGas
    usdcBalance := 7
    ethSwapOk := true
    probeOk := true
    symbolOf := fun _ => "UNK" }

/-- Witness for C1 at the concrete environment `envC1`. -/
theorem swap_gas_recovery_at_most_once_witness :
    (swap_tokens_for_tokens envC1 MYSO_ADDRESS USDC_ADDRESS 1000).1
        = .error .insufficientGas
    ∧ countRecovery (swap_tokens_for_tokens envC1 MYSO_ADDRESS USDC_ADDRESS 1000).2
        = 1
    ∧ submitFlags (swap_tokens_for_tokens envC1 MYSO_ADDRESS USDC_ADDRESS 1000).2
        = [false, true] :=
  have h := swap_gas_recovery_at_most_once envC1 MYSO_ADDRESS USDC_ADDRESS 1000
    (by decide) (by decide) rfl rfl (by decide) rfl
  ⟨h.1, h.2.1, h.2.2.1⟩

/-- Concrete environment for the C2 counterexample: a swap whose input
token is USDC, whose initial submission fails with the insufficient-gas
condition, with a positive USDC balance; the recovery conversion succeeds
and the retried submission is mined successfully. -/
def envC2 : SwapEnv :=
  { poolQuery := some "0x1111"
    allowance := 1000000
    newAllowance := 0
    approveSend := fun _ => .otherErr
    swapSend := fun n => if n = 0 then .insufficientGas else .mined "0xfeed" 1
    usdcBalance := 100
    ethSwapOk := true
    probeOk := true
    symbolOf := fun _ => "UNK" }

/-- Counterexample for C2: with `tokenIn = USDC` and an insufficient-gas
submission failure, the swap-level handler does attempt the recovery
conversion (one `swap_usdc_for_eth` call occurs) and the request does not
fail with the insufficient-gas kind — here it even succeeds on the retry —
contradicting both parts of the claim. -/
theorem usdc_swap_recovery_attempted_cex :
    0 < countRecovery
        (swap_tokens_for_tokens envC2 USDC_ADDRESS MYSO_ADDRESS 1000).2
    ∧ (swap_tokens_for_tokens envC2 USDC_ADDRESS MYSO_ADDRESS 1000).1
        = .ok "0xfeed" :=
  ⟨by decide, rfl⟩

/-- Claim C2 (amended): the circular-recovery guard lives in the
token-approval step, not in the swap-submission handler: when approving
the stable asset (USDC) itself fails with the insufficient-gas condition
on an initial (non-retry) attempt, no recovery conversion is attempted and
the operation fails terminally with the need-ETH error; a swap submission
failure with `tokenIn = USDC` still attempts recovery whenever the USDC
balance is positive. -/
theorem usdc_approve_circular_guard (env : ApproveEnv) (amount : ℕ)
    (hallow : env.allowance < amount)
    (hsend : env.send 0 = .insufficientGas) :
    approve_token env USDC_ADDRESS amount
        = (.error .needEth, [.approveSubmit false])
    ∧ countRecovery (approve_token env USDC_ADDRESS amount).2 = 0 := by
  have hmain : approve_token env USDC_ADDRESS amount
      = (.error .needEth, [.approveSubmit false]) := by
    unfold approve_token
    rw [if_neg (by omega), hsend]
    rw [if_pos (by decide)]
  exact ⟨hmain, by rw [hmain]; rfl⟩

/-- Concrete approval environment for the C2 witness. -/
def envC2approve : ApproveEnv :=
  { allowance := 0
    send := fun _ => .insufficientGas
    usdcBalance := 50
    ethSwapOk := true }

/-- Witness for C2 (amended) at the concrete environment `envC2approve`. -/
theorem usdc_approve_circular_guard_witness :
    approve_token envC2approve USDC_ADDRESS 10
        = (.error .needEth, [.approveSubmit false])
    ∧ countRecovery (approve_token envC2approve USDC_ADDRESS 10).2 = 0 :=
  usdc_approve_circular_guard envC2approve 10 (by decide) rfl

/-- Claim C5: a submitted swap that lands on-chain with receipt status 0
returns normally with the transaction hash preserved (no exception), its
trace records the read-only revert-reason probe with whatever outcome the
probe had, and a failing probe is swallowed — the returned value is the
same for either probe outcome. -/
theorem onchain_revert_returns_hash (env : SwapEnv) (tokenIn tokenOut : String)
    (amountIn : ℕ) (h : String) (status : ℕ)
    (hpool : check_pool_exists env = true)
    (hallow : amountIn ≤ env.allowance)
    (hsend : env.swapSend 0 = .mined h status)
    (hrev : status ≠ 1) :
    swap_tokens_for_tokens env tokenIn tokenOut amountIn
      = (.ok h,
         [.submit false (amount_out_min (get_token_symbol env tokenIn)
            (get_token_symbol env tokenOut) amountIn),
          .probe env.probeOk])
    ∧ ∀ b : Bool,
        (swap_tokens_for_tokens { env with probeOk := b } tokenIn tokenOut
            amountIn).1 = .ok h := by
  constructor
  · unfold swap_tokens_for_tokens
    rw [swap_approval_step_skip env tokenIn amountIn hallow]
    simp [hpool, hsend, hrev]
  · intro b
    unfold swap_tokens_for_tokens
    rw [swap_approval_step_skip { env with probeOk := b } tokenIn amountIn hallow]
    have hp : check_pool_exists { env with probeOk := b } = true := hpool
    simp [hp, hsend, hrev]

/-- Concrete environment for the C5 witness: the submission is mined with
receipt status 0 and the revert-reason probe itself fails. -/
def envC5 : SwapEnv :=
  { poolQuery := some "0x1111"
    allowance := 1000000
    newAllowance := 0
    approveSend := fun _ => .otherErr
    swapSend := fun _ => .mined "0xdead" 0
    usdcBalance := 0
    ethSwapOk := false
    probeOk := false
    symbolOf := fun _ => "UNK" }

/-- Witness for C5 at the concrete environment `envC5`. -/
theorem onchain_revert_returns_hash_witness :
    swap_tokens_for_tokens envC5 USDC_ADDRESS MYSO_ADDRESS 1000
      = (.ok "0xdead",
         [.submit false (amount_out_min (get_token_symbol envC5 USDC_ADDRESS)
            (get_token_symbol envC5 MYSO_ADDRESS) 1000),
          .probe false]) :=
  (onchain_revert_returns_hash envC5 USDC_ADDRESS MYSO_ADDRESS 1000 "0xdead" 0
    (by decide) (by decide) rfl (by decide)).1

/-- Claim C9: any exception during the factory pool query makes the
pool-existence check return false, and a swap attempted in that state
aborts with the no-liquidity-pool failure (before any submission), rather
than surfacing a gateway error. -/
theorem pool_check_false_on_error (env : SwapEnv) (tokenIn tokenOut : String)
    (amountIn : ℕ) (herr : env.poolQuery = none) :
    check_pool_exists env = false
    ∧ swap_tokens_for_tokens env tokenIn tokenOut amountIn
        = (.error .noLiquidityPool, []) := by
  have hc : check_pool_exists env = false := by
    simp [check_pool_exists, herr]
  refine ⟨hc, ?_⟩
  unfold swap_tokens_for_tokens
  simp [hc]

/-- Concrete environment for the C9 witness: the factory query raises. -/
def envC9 : SwapEnv :=
  { poolQuery := none
    allowance := 1000000
    newAllowance := 0
    approveSend := fun _ => .otherErr
    swapSend := fun _ => .mined "0xbeef" 1
    usdcBalance := 0
    ethSwapOk := false
    probeOk := true
    symbolOf := fun _ => "UNK" }

/-- Witness for C9 at the concrete environment `envC9`. -/
theorem pool_check_false_on_error_witness :
    check_pool_exists envC9 = false
    ∧ swap_tokens_for_tokens envC9 USDC_ADDRESS MYSO_ADDRESS 1000
        = (.error .noLiquidityPool, []) :=
  pool_check_false_on_error envC9 USDC_ADDRESS MYSO_ADDRESS 1000 rfl

/-- Claim C6: the minimum-output floor is the fixed constant 1000
(0.001 USDC at 6 decimals) for a MYSO → USDC sell, independent of
`amountIn`, and `0.2 × amountIn` (integer-truncated, `amountIn / 5`) for
every other direction. -/
theorem amount_out_min_policy :
    (∀ amountIn : ℕ, amount_out_min "MYSO" "USDC" amountIn = 1000)
    ∧ ∀ (symIn symOut : String) (amountIn : ℕ),
        ¬(symIn = "MYSO" ∧ symOut = "USDC") →
        amount_out_min symIn symOut amountIn = amountIn / 5 := by
  constructor
  · intro a
    simp [amount_out_min]
  · intro symIn symOut a h
    simp [amount_out_min, h]

/-- Witness for C6: the fixed floor at a large MYSO sell, and the 20%
floor on the reverse (USDC → MYSO) direction. -/
theorem amount_out_min_policy_witness :
    amount_out_min "MYSO" "USDC" 123456789 = 1000
    ∧ amount_out_min "USDC" "MYSO" 100 = 20 :=
  ⟨amount_out_min_policy.1 123456789,
   amount_out_min_policy.2 "USDC" "MYSO" 100 (by decide)⟩

/-- Counterexample for C3: at a live gas price of 200 gwei the caller-level
multipliers are applied to the raw live price, not to the clamped value
`get_gas_price` would return, so every one of the three transaction gas
prices differs from the claimed clamp-then-multiply policy, and the
approval gas price even exceeds the configured 100 gwei ceiling. -/
theorem gas_price_multiplier_unclamped_cex :
    approve_gas_price (200 * 10 ^ 9)
        ≠ get_gas_price (some (200 * 10 ^ 9)) * 12 / 10
    ∧ swap_gas_price (200 * 10 ^ 9)
        ≠ get_gas_price (some (200 * 10 ^ 9)) * 14 / 10
    ∧ emergency_gas_price (200 * 10 ^ 9)
        ≠ get_gas_price (some (200 * 10 ^ 9)) * 8 / 10
    ∧ max_gas_price < approve_gas_price (200 * 10 ^ 9) := by
  refine ⟨?_, ?_, ?_, ?_⟩ <;> decide

/-- Claim C3 (amended): `get_gas_price` clamps the live gas price to the
100 gwei ceiling (and returns the ceiling itself on a read error), but the
transaction builders apply their multipliers — 1.2× for approvals, 1.4×
for swaps, 0.8× for the emergency low-gas recovery swap — to the raw live
gas price, bypassing the clamp: whenever the live price exceeds the
ceiling, the approval and swap gas prices strictly exceed what the
clamp-then-multiply policy would produce, and the emergency price is never
below it. -/
theorem gas_price_policy_amended (live : ℕ) :
    get_gas_price (some live) = min live max_gas_price
    ∧ get_gas_price none = max_gas_price
    ∧ get_gas_price (some live) ≤ max_gas_price
    ∧ approve_gas_price live = live * 12 / 10
    ∧ swap_gas_price live = live * 14 / 10
    ∧ emergency_gas_price live = live * 8 / 10
    ∧ (max_gas_price < live →
        get_gas_price (some live) * 12 / 10 < approve_gas_price live
        ∧ get_gas_price (some live) * 14 / 10 < swap_gas_price live
        ∧ get_gas_price (some live) * 8 / 10 ≤ emergency_gas_price live) := by
  refine ⟨rfl, rfl, min_le_right _ _, rfl, rfl, rfl, fun hlive => ⟨?_, ?_, ?_⟩⟩ <;>
    · simp only [get_gas_price, approve_gas_price, swap_gas_price,
        emergency_gas_price, max_gas_price] at *
      omega

/-- Witness for C3 (amended): the strict gap at a live price of 200 gwei. -/
theorem gas_price_policy_amended_witness :
    max_gas_price < 200 * 10 ^ 9
    ∧ get_gas_price (some (200 * 10 ^ 9)) * 12 / 10
        < approve_gas_price (200 * 10 ^ 9) :=
  ⟨by decide, ((gas_price_policy_amended (200 * 10 ^ 9)).2.2.2.2.2.2 (by decide)).1⟩

/-- Claim C7 (code evaluated at the failing input): `deactivate_wallets`
with `count = 0` on a pool of three wallets deactivates all three and
returns all three addresses — Python's `ws[-0:]` is the whole list —
instead of deactivating none. -/
theorem deactivate_wallets_zero_count :
    deactivate_wallets ["0xaaa", "0xbbb", "0xccc"] 0
      = (["0xaaa", "0xbbb", "0xccc"], []) := by decide

/-- Counterexample for C4: the stored statistics cannot track profit.
No observer of the code's per-wallet stats can report "previous profit
plus `p`" after a sell, because `update_wallet_stats` receives only the
address and the notional amount — the post-state is the same for every
claimed profit `p`, so the claim's profit clause fails on the code. -/
theorem update_stats_no_profit_cex :
    ¬ ∃ profitOf : WalletStats → ℚ,
        ∀ (v p : ℚ),
          ∀ w' ∈ update_wallet_stats [⟨"0xabc", true, ⟨0, 0⟩⟩] "0xabc" v,
            profitOf w'.stats = profitOf ⟨0, 0⟩ + p := by
  rintro ⟨f, hf⟩
  have hmem : (⟨"0xabc", true, ⟨1, 4⟩⟩ : WalletData)
      ∈ update_wallet_stats [⟨"0xabc", true, ⟨0, 0⟩⟩] "0xabc" 4 := by
    simp [update_wallet_stats]
  have h0 := hf 4 0 _ hmem
  have h1 := hf 4 1 _ hmem
  rw [h0] at h1
  simp at h1

/-- Claim C4 (amended): the stats update takes only the wallet address and
the notional USD amount.  If no record's address matches
(case-insensitively) the registry is unchanged — a silent no-op; when the
first matching record is found, its single undifferentiated `trades`
counter is incremented and the notional is added to its cumulative
`volume`, all other records unchanged; no buy/sell split and no profit are
recorded. -/
theorem update_stats_trades_volume :
    (∀ (ws : List WalletData) (addr : String) (amt : ℚ),
        (∀ w ∈ ws, pyLower w.address ≠ pyLower addr) →
        update_wallet_stats ws addr amt = ws)
    ∧ ∀ (pre : List WalletData) (w : WalletData) (post : List WalletData)
        (addr : String) (amt : ℚ),
        (∀ u ∈ pre, pyLower u.address ≠ pyLower addr) →
        pyLower w.address = pyLower addr →
        update_wallet_stats (pre ++ w :: post) addr amt
          = pre ++ { w with stats := { trades := w.stats.trades + 1,
                                       volume := w.stats.volume + amt } } :: post := by
  constructor
  · intro ws addr amt h
    induction ws with
    | nil => rfl
    | cons w rest ih =>
        rw [update_wallet_stats]
        rw [if_neg (h w (List.mem_cons_self w rest))]
        rw [ih fun u hu => h u (List.mem_cons_of_mem w hu)]
  · intro pre w post addr amt hpre hw
    induction pre with
    | nil => simp [update_wallet_stats, hw]
    | cons u rest ih =>
        rw [List.cons_append, update_wallet_stats]
        rw [if_neg (hpre u (List.mem_cons_self u rest))]
        rw [ih fun x hx => hpre x (List.mem_cons_of_mem u hx)]
        rfl

/-- Witness for C4 (amended): a non-matching address is a no-op; a
matching update on a fresh wallet yields `trades = 1, volume = 4`. -/
theorem update_stats_trades_volume_witness :
    update_wallet_stats [⟨"0xabc", true, ⟨0, 0⟩⟩] "0xdef" 3
        = [⟨"0xabc", true, ⟨0, 0⟩⟩]
    ∧ update_wallet_stats [⟨"0xabc", true, ⟨0, 0⟩⟩] "0xabc" 4
        = [⟨"0xabc", true, ⟨1, 4⟩⟩] :=
  ⟨update_stats_trades_volume.1 _ "0xdef" 3 (by decide),
   by simpa using
     update_stats_trades_volume.2 [] ⟨"0xabc", true, ⟨0, 0⟩⟩ [] "0xabc" 4
       (by simp) rfl⟩

/-- Claim C8: `ensure_wallets` is monotone and never destructive — the
starting pool is a prefix of the resulting pool, the resulting pool has
exactly `max` (existing, requested) wallets, the returned wallets are the
first `n` of the pool in insertion order, and `ensure_wallets 5` followed
by `ensure_wallets 2` leaves 5 wallets. -/
theorem ensure_wallets_monotone (fresh : ℕ → α) (ws : List α) (n : ℕ) :
    ws <+: (ensure_wallets fresh ws n).1
    ∧ (ensure_wallets fresh ws n).1.length = max ws.length n
    ∧ (ensure_wallets fresh ws n).2 = (ensure_wallets fresh ws n).1.take n
    ∧ (ensure_wallets fresh (ensure_wallets fresh ([] : List α) 5).1 2).1.length
        = 5 := by
  have hlen : ∀ (ws : List α) (n : ℕ),
      (ensure_wallets fresh ws n).1.length = max ws.length n := by
    intro ws n
    simp only [ensure_wallets, ensure_wallets_loop_eq, List.length_append,
      List.length_map, List.length_range']
    omega
  refine ⟨?_, hlen ws n, rfl, ?_⟩
  · simp only [ensure_wallets, ensure_wallets_loop_eq]
    exact List.prefix_append _ _
  · rw [hlen, hlen]
    simp

/-- Claim C10: assuming the persisted `released` counter starts at most
`release_cap`, one run of the supply-release bot keeps it at most
`release_cap`; a run with `released` already at the cap changes nothing,
and otherwise `released` grows by exactly the (capped) computed mint
amount or not at all. -/
theorem supply_release_cap_invariant (cfg : SupplyConfig)
    (released totalSupply : ℤ) (price : ℚ)
    (h : released ≤ cfg.release_cap) :
    supply_release_run cfg released totalSupply price ≤ cfg.release_cap
    ∧ (cfg.release_cap ≤ released →
        supply_release_run cfg released totalSupply price = released)
    ∧ (supply_release_run cfg released totalSupply price = released
       ∨ supply_release_run cfg released totalSupply price
           = released + calculate_mint_amount cfg released totalSupply price) := by
  have hamt : calculate_mint_amount cfg released totalSupply price
      ≤ cfg.release_cap - released := by
    unfold calculate_mint_amount
    split
    · omega
    · exact min_le_right _ _
  unfold supply_release_run
  split
  · exact ⟨h, fun _ => rfl, Or.inl rfl⟩
  · split
    · exact ⟨h, fun _ => rfl, Or.inl rfl⟩
    · next hcap =>
        split
        · exact ⟨by omega, fun hc => absurd hc hcap, Or.inr rfl⟩
        · exact ⟨h, fun hc => absurd hc hcap, Or.inl rfl⟩

/-- The default supply-release configuration (bot.py lines 32-42):
`target_price = 0.0035`, `threshold_percent = 5`, `release_cap = 1000000`. -/
def defaultSupplyConfig : SupplyConfig :=
  { target_price := 7 / 2000, threshold_percent := 5, release_cap := 1000000 }

/-- Witness for C10: a concrete run from `released = 0` at price 1 stays
within the default cap. -/
theorem supply_release_cap_invariant_witness :
    (0 : ℤ) ≤ defaultSupplyConfig.release_cap
    ∧ supply_release_run defaultSupplyConfig 0 1000 1
        ≤ defaultSupplyConfig.release_cap :=
  ⟨by decide,
   (supply_release_cap_invariant defaultSupplyConfig 0 1000 1 (by decide)).1⟩

end MySocial
